import Mathlib

/-!
A shallow embedding of `src/ycmd/completers/rust/rust_completer.py`, the
racerd-backed Rust completer.  Python module-level state and OS effects
(chosen port, random bytes, process liveness, filesystem) are passed
explicitly; machine strings are Lean `String`, byte strings are lists of
naturals below 256; fallible Python code returns `Except`.
-/

namespace Racerd

/-- Byte strings (Python `bytes`): lists of naturals below 256. -/
abbrev Bytes := List Nat

/-- `RACERD_HMAC_HEADER = 'x-racerd-hmac'` (line 55). -/
def RACERD_HMAC_HEADER : String := "x-racerd-hmac"

/-- `HMAC_SECRET_LENGTH = 16` (line 56). -/
def HMAC_SECRET_LENGTH : Nat := 16

/-- `ERROR_FROM_RACERD_MESSAGE` (lines 61-65). -/
def ERROR_FROM_RACERD_MESSAGE : String :=
  "Received error from racerd while retrieving completions. You did not " ++
  "set the rust_src_path option, which is probably causing this issue. " ++
  "See YCM docs for details."

/-- Python truthiness of an optional string: `None` and the empty string
are falsy, every other string is truthy. -/
def optStrTruthy : Option String → Bool
  | none => false
  | some s => !(s == "")

/-- Python string formatting of an optional string: `format` renders
`None` as the text `None` and a string as itself. -/
def pyStr : Option String → String
  | none => "None"
  | some s => s

/-- Modelled from the spec and the call sites: `ycmd.utils.ToBytes` (not
under `src/`) encodes a string as its UTF-8 bytes; a falsy value becomes
the empty byte string. -/
def ToBytes (s : String) : Bytes :=
  s.toUTF8.toList.map (fun b => b.toNat)

/-- `ToBytes` applied to a possibly-`None` string: `ToBytes(None)` is the
empty byte string (`ToBytes` returns `bytes()` on falsy input). -/
def ToBytesOpt : Option String → Bytes
  | none => []
  | some s => ToBytes s

/-! ### Completion candidates (`_GetExtraData`, `ComputeCandidatesInner`) -/

/-- One entry of the JSON array racerd returns from `/list_completions`:
`{text, kind, context, file_path, line, column}`.  A falsy `file_path`
(JSON null or empty string) is modelled as `""`; falsy `line`/`column`
are `0`. -/
structure Completion where
  text : String
  kind : String
  context : String
  file_path : String
  line : Nat
  column : Nat
deriving DecidableEq, Repr

/-- The `location` dictionary built by `_GetExtraData` (lines 221-233):
an `Option` field is `some` exactly when the corresponding key is in the
dictionary. -/
structure Location where
  filepath : Option String := none
  line_num : Option Nat := none
  column_num : Option Nat := none
deriving DecidableEq, Repr

/-- `RustCompleter._GetExtraData` (lines 221-233): starts from an empty
`location` dictionary, adds each of `filepath`, `line_num`, `column_num`
only when the corresponding completion field is truthy (`column_num` is
the backend column plus one), and returns the location only when the
dictionary is non-empty (`if location:`). -/
def GetExtraData (completion : Completion) : Option Location :=
  let location : Location := {}
  let location :=
    if !(completion.file_path == "") then
      { location with filepath := some completion.file_path }
    else location
  let location :=
    if completion.line ≠ 0 then
      { location with line_num := some completion.line }
    else location
  let location :=
    if completion.column ≠ 0 then
      { location with column_num := some (completion.column + 1) }
    else location
  if location ≠ ({} : Location) then some location else none

/-- The editor-facing completion datum.  Modelled from the spec:
`responses.BuildCompletionData` is not under `src/`; spec section 3 says a
CompletionCandidate is the text to insert, a kind tag, a context string
and an optional source location. -/
structure CompletionCandidate where
  insertion_text : String
  kind : String
  extra_menu_info : String
  extra_data : Option Location
deriving DecidableEq, Repr

/-- Modelled from the spec: `responses.BuildCompletionData` (not under
`src/`) packages its arguments into the candidate record. -/
def BuildCompletionData (insertion_text kind extra_menu_info : String)
    (extra_data : Option Location) : CompletionCandidate :=
  { insertion_text, kind, extra_menu_info, extra_data }

/-! ### HTTP layer (`_GetResponse`) -/

/-- The exception classes that reach this module from a racerd request:
`requests.HTTPError` (raised by `raise_for_status` on a 4xx/5xx status),
`requests.exceptions.ConnectionError` (transport-level failure, the
backend is unreachable), and Python `RuntimeError` raised by this module
itself. -/
inductive ReqError
  | httpError (status : Nat)
  | connectionError
  | runtimeError (msg : String)
deriving DecidableEq, Repr

/-- What the transport produces for one request: either an HTTP response
with a status code and a (parsed) body, or a connection-level failure
raised by `requests.request` itself. -/
inductive HttpOutcome (α : Type)
  | response (status : Nat) (body : α)
  | connectionFailure
deriving DecidableEq, Repr

/-- HTTP 204, `requests.codes.no_content`. -/
def no_content : Nat := 204

/-- The response handling of `RustCompleter._GetResponse` (lines 172-177):
`raise_for_status` raises `requests.HTTPError` for a 4xx/5xx status; a
204 response returns `None`; otherwise the JSON body is returned.  The
response body is taken already parsed (`response.json()`). -/
def GetResponse {α : Type} (outcome : HttpOutcome α) : Except ReqError (Option α) :=
  match outcome with
  | .connectionFailure => .error .connectionError
  | .response status body =>
    if 400 ≤ status ∧ status < 600 then .error (.httpError status)
    else if status = no_content then .ok none
    else .ok (some body)

/-- `RustCompleter._FetchCompletions` (lines 255-256): delegates to
`_GetResponse( '/list_completions', request_data )`. -/
def FetchCompletions (outcome : HttpOutcome (List Completion)) :
    Except ReqError (Option (List Completion)) :=
  GetResponse outcome

/-- `RustCompleter.ComputeCandidatesInner` (lines 236-252): fetches the
completions, translating only `requests.HTTPError` into the
misconfiguration `RuntimeError` when `self._rust_source_path` is falsy
(`except requests.HTTPError:` does not catch connection errors); a falsy
result (`None` or the empty list) yields `[]`; otherwise each completion
is turned into a candidate with `_GetExtraData` attached. -/
def ComputeCandidatesInner (rust_source_path : Option String)
    (outcome : HttpOutcome (List Completion)) :
    Except ReqError (List CompletionCandidate) :=
  match FetchCompletions outcome with
  | .error (.httpError status) =>
      if !optStrTruthy rust_source_path then
        .error (.runtimeError ERROR_FROM_RACERD_MESSAGE)
      else .error (.httpError status)
  | .error e => .error e
  | .ok completions =>
      if completions = none ∨ completions = some [] then .ok []
      else .ok ((completions.getD []).map (fun completion =>
        BuildCompletionData completion.text completion.kind completion.context
          (GetExtraData completion)))

/-! ### Server state (`_StartServer`, `_StopServer`, `_RestartServer`,
`ServerIsRunning`, `ServerIsReady`, `DebugInfo`) -/

/-- The mutable instance attributes of `RustCompleter` that the lifecycle
methods read and write.  Process handles are opaque identifiers whose
liveness an oracle (standing for the OS) reports. -/
structure ServerState where
  racerd_host : Option String
  racerd_phandle : Option Nat
  server_stdout : Option String
  server_stderr : Option String
  hmac_secret : Bytes
  keep_logfiles : Bool
  rust_source_path : Option String
  racerd : String
deriving DecidableEq, Repr

/-- Modelled from the spec: `ycmd.utils.ProcessIsRunning` (not under
`src/`) reports whether a process handle is non-`None` and the OS says
the process is alive (spec section 4.1, `IsRunning`). -/
def ProcessIsRunning (alive : Nat → Bool) : Option Nat → Bool
  | none => false
  | some handle => alive handle

/-- `RustCompleter.ServerIsRunning` (lines 300-307): the recorded host is
truthy and the process handle reports alive. -/
def ServerIsRunning (alive : Nat → Bool) (s : ServerState) : Bool :=
  optStrTruthy s.racerd_host && ProcessIsRunning alive s.racerd_phandle

/-- The observable outcome of a Python method that should return a string:
either the string, or an uncaught exception of the named class. -/
inductive DebugInfoResult
  | str (s : String)
  | raised (exc : String)
deriving DecidableEq, Repr

/-- `RustCompleter.DebugInfo` (lines 394-414).  In the middle branch the
source returns
`( 'racerd is no longer running\n', '  racerd path: {0}\n' ... ).format( ... )`:
the stray comma after the first literal makes the parenthesised
expression a two-element tuple, and calling `format` on a tuple raises
`AttributeError` (tuples have no `format` attribute), so that branch
raises instead of returning a string. -/
def DebugInfo (alive : Nat → Bool) (s : ServerState) : DebugInfoResult :=
  if ServerIsRunning alive s then
    .str ("racerd\n  listening at: " ++ pyStr s.racerd_host ++
          "\n  racerd path: " ++ s.racerd ++
          "\n  stdout log: " ++ pyStr s.server_stdout ++
          "\n  stderr log: " ++ pyStr s.server_stderr)
  else if optStrTruthy s.server_stdout && optStrTruthy s.server_stderr then
    .raised "AttributeError"
  else
    .str "racerd is not running"

/-- `RustCompleter.ServerIsReady` (lines 310-325): `False` without a
probe when the server is not running; otherwise issues the `/ping` probe
and returns `True`, except that exactly the class
`requests.exceptions.ConnectionError` is caught and turned into `False`;
every other exception class propagates. -/
def ServerIsReady (alive : Nat → Bool) (s : ServerState)
    (ping : HttpOutcome Unit) : Except ReqError Bool :=
  if !ServerIsRunning alive s then .ok false
  else
    match GetResponse ping with
    | .ok _ => .ok true
    | .error .connectionError => .ok false
    | .error e => .error e

/-! ### Authentication (`_ExtraHeaders`, `_CreateHmacSecret`) -/

/-- The base64 alphabet as byte values (Python `base64.b64encode` output
is ASCII bytes). -/
def b64byte (n : Nat) : Nat :=
  (("ABCDEFGHIJKLMNOPQRSTUVWXYZabcdefghijklmnopqrstuvwxyz0123456789+/").toList.getD
    n 'A').toNat

/-- Python `base64.b64encode`: standard base64 with `=` (byte 61)
padding, three input bytes per four output bytes. -/
def b64encode : Bytes → Bytes
  | [] => []
  | [a] =>
      [b64byte (a % 256 / 4), b64byte (a % 4 * 16), 61, 61]
  | [a, b] =>
      [b64byte (a % 256 / 4), b64byte (a % 4 * 16 + b % 256 / 16),
       b64byte (b % 16 * 4), 61]
  | a :: b :: c :: rest =>
      b64byte (a % 256 / 4) :: b64byte (a % 4 * 16 + b % 256 / 16) ::
      b64byte (b % 16 * 4 + c % 256 / 64) :: b64byte (c % 64) :: b64encode rest

/-- One hexadecimal digit, lowercase, as `binascii.hexlify` produces. -/
def hexDigit (n : Nat) : Char :=
  if n < 10 then Char.ofNat (48 + n) else Char.ofNat (87 + n)

/-- `binascii.hexlify` of a byte string, decoded to text for header
transport (line 188). -/
def hexlify (bs : Bytes) : String :=
  ⟨(bs.map (fun b => [hexDigit (b % 256 / 16), hexDigit (b % 16)])).flatten⟩

/-- Eight little-endian bytes of a 64-bit accumulator. -/
def digestBytes (n : Nat) : Bytes :=
  [n % 256, n / 2 ^ 8 % 256, n / 2 ^ 16 % 256, n / 2 ^ 24 % 256,
   n / 2 ^ 32 % 256, n / 2 ^ 40 % 256, n / 2 ^ 48 % 256, n / 2 ^ 56 % 256]

/-- Modelled from the spec: `hmac_utils.CreateRequestHmac` lives in
`ycmd/hmac_utils.py`, which is not among the provided sources.  Spec
section 4.2 says it computes a keyed message authentication code over the
structured combination of method, path and body, using the secret as key,
and that it is deterministic.  We model it as a concrete executable keyed
digest over exactly those inputs. -/
def CreateRequestHmac (method handler body secret : Bytes) : Bytes :=
  digestBytes
    ((secret ++ [58] ++ method ++ [0] ++ handler ++ [0] ++ body).foldl
      (fun h b => (h * 1099511628211 + b % 256 + 1) % 2 ^ 64)
      14695981039346656037)

/-- `RustCompleter._ExtraHeaders` (lines 180-192): a falsy body is
replaced by the empty byte string, the request code is computed over
method, handler and that body with the current secret, and the headers
carry the content type plus the hex-encoded code under
`RACERD_HMAC_HEADER`. -/
def ExtraHeaders (hmac_secret : Bytes) (method handler body : Bytes) :
    List (String × String) :=
  let body := if body = [] then ([] : Bytes) else body
  let hmac := CreateRequestHmac method handler body hmac_secret
  [("content-type", "application/json"),
   (RACERD_HMAC_HEADER, hexlify hmac)]

/-- The wire request handed to `requests.request` (lines 167-170). -/
structure WireRequest where
  method : Bytes
  url : Bytes
  body : Bytes
  headers : List (String × String)
deriving DecidableEq, Repr

/-- The request-building half of `RustCompleter._GetResponse`
(lines 154-170): the url joins the recorded host with the handler
(`urllib.parse.urljoin`, modelled for the shapes this module uses — a
base with no path and a handler that is an absolute path — as
concatenation), the body is the JSON-encoded parameters or the empty
byte string when the parameters are falsy (`parameters` here stands for
the already-encoded `json.dumps` output, since `_ConvertToRacerdRequest`
returns either `None` or a non-empty dictionary), and the headers come
from `_ExtraHeaders` over the same method, handler and body that are
sent. -/
def BuildRequest (s : ServerState) (handler : Bytes)
    (parameters : Option Bytes) (method : Bytes) : WireRequest :=
  let url := ToBytesOpt s.racerd_host ++ handler
  let body := match parameters with
    | some encoded => encoded
    | none => []
  { method := method, url := url, body := body,
    headers := ExtraHeaders s.hmac_secret method handler body }

/-! ### Lifecycle (`_StartServer`, `_StopServer`, `_RestartServer`) -/

/-- The OS-provided inputs of one `_StartServer` call: the unused port
picked by `utils.GetUnusedLocalhostPort`, the random bytes of
`os.urandom` (a function of the requested length), the name of the
temporary secret file, the handle of the spawned process, the per-run
temporary log directory, and the liveness oracle. -/
structure StartEnv where
  port : Nat
  urandom : Nat → Bytes
  secretFileName : String
  newHandle : Nat
  logDir : String
  alive : Nat → Bool

/-- `RustCompleter._CreateHmacSecret` (lines 390-391):
`base64.b64encode( os.urandom( HMAC_SECRET_LENGTH ) )`. -/
def CreateHmacSecret (env : StartEnv) : Bytes :=
  b64encode (env.urandom HMAC_SECRET_LENGTH)

/-- The log file name format of lines 279-285:
`racerd_{port}_{std}.log` inside the temporary directory. -/
def logFileName (logDir : String) (port : Nat) (std : String) : String :=
  logDir ++ "/racerd_" ++ toString port ++ "_" ++ std ++ ".log"

/-- Record a created (or truncated) file in the filesystem model. -/
def insertFile (pth : String) (fs : List String) : List String :=
  if pth ∈ fs then fs else pth :: fs

/-- Everything one `_StartServer` call leaves behind: the mutated
attributes, the filesystem (secret file and both log sinks created), the
bytes written to the secret file, the argument list handed to
`utils.SafePopen`, and whether the final liveness check raised
`RuntimeError( 'Failed to start racerd!' )` — the attribute mutations
persist even when that exception is raised. -/
structure StartOutcome where
  state : ServerState
  fs : List String
  secretFileContent : Bytes
  args : List String
  raisedStartupFailure : Bool
deriving Repr

/-- `RustCompleter._StartServer` (lines 259-297): picks a port, generates
a fresh secret, writes it to the secret file, builds the argument list
(appending `--rust-src-path` only when configured), records both log
paths, spawns the process, records the loopback address for the chosen
port, and finally checks `ServerIsRunning`. -/
def StartServer (env : StartEnv) (s : ServerState) (fs : List String) :
    StartOutcome :=
  let port := env.port
  let hmac_secret := CreateHmacSecret env
  let args := [s.racerd, "serve", "--port", toString port, "-l",
               "--secret-file", env.secretFileName]
  let args := if optStrTruthy s.rust_source_path then
                args ++ ["--rust-src-path", pyStr s.rust_source_path]
              else args
  let server_stdout := logFileName env.logDir port "stdout"
  let server_stderr := logFileName env.logDir port "stderr"
  let fs := insertFile env.secretFileName fs
  let fs := insertFile server_stderr (insertFile server_stdout fs)
  let s1 : ServerState :=
    { s with hmac_secret := hmac_secret,
             server_stdout := some server_stdout,
             server_stderr := some server_stderr,
             racerd_phandle := some env.newHandle,
             racerd_host := some ("http://127.0.0.1:" ++ toString port) }
  { state := s1, fs := fs, secretFileContent := hmac_secret, args := args,
    raisedStartupFailure := !ServerIsRunning env.alive s1 }

/-- The log-removal pattern of lines 336-345:
`if self._server_stdout and p.exists( self._server_stdout ): os.unlink( ... );
self._server_stdout = None` — the unlink happens only behind the
existence check (so a missing file raises no error), and the recorded
path is cleared only in that same branch. -/
def unlinkIfExists (fs : List String) (o : Option String) :
    Option String × List String :=
  match o with
  | none => (none, fs)
  | some q =>
      if q ≠ "" ∧ q ∈ fs then (none, fs.filter (fun r => r ≠ q))
      else (some q, fs)

/-- Lines 330-334 of `_StopServer`: when a process handle exists,
terminate it, wait for it, and clear both the handle and the recorded
host. -/
def stopProc (s : ServerState) : ServerState :=
  if s.racerd_phandle.isSome then
    { s with racerd_phandle := none, racerd_host := none }
  else s

/-- Lines 336-345 of `_StopServer`: when log retention is disabled,
remove the stdout log and then the stderr log with the
`unlinkIfExists` pattern. -/
def stopLogs (s : ServerState) (fs : List String) : ServerState × List String :=
  if s.keep_logfiles then (s, fs)
  else
    ({ s with
        server_stdout := (unlinkIfExists fs s.server_stdout).1,
        server_stderr :=
          (unlinkIfExists (unlinkIfExists fs s.server_stdout).2
            s.server_stderr).1 },
     (unlinkIfExists (unlinkIfExists fs s.server_stdout).2 s.server_stderr).2)

/-- `RustCompleter._StopServer` (lines 328-345). -/
def StopServer (s : ServerState) (fs : List String) : ServerState × List String :=
  stopLogs (stopProc s) fs

/-- `RustCompleter._RestartServer` (lines 348-356): under the lock, stop
only when currently running, then start. -/
def RestartServer (env : StartEnv) (s : ServerState) (fs : List String) :
    StartOutcome :=
  if ServerIsRunning env.alive s then
    StartServer env (StopServer s fs).1 (StopServer s fs).2
  else
    StartServer env s fs

/-- The externally observable state that claim C7 compares: `IsRunning`,
the recorded address, the recorded log paths, and the `DebugInfo`
output. -/
structure Observables where
  isRunning : Bool
  address : Option String
  stdoutLog : Option String
  stderrLog : Option String
  debugInfo : DebugInfoResult
deriving DecidableEq, Repr

/-- Project the observable state out of the attributes. -/
def observe (alive : Nat → Bool) (s : ServerState) : Observables :=
  { isRunning := ServerIsRunning alive s,
    address := s.racerd_host,
    stdoutLog := s.server_stdout,
    stderrLog := s.server_stderr,
    debugInfo := DebugInfo alive s }

/-! ### Concrete sample data for witnesses -/

/-- A state in which the server is running (host recorded, live handle). -/
def sampleRunning : ServerState :=
  { racerd_host := some "http://127.0.0.1:4000", racerd_phandle := some 1,
    server_stdout := some "/tmp/racerd_4000_stdout.log",
    server_stderr := some "/tmp/racerd_4000_stderr.log",
    hmac_secret := [], keep_logfiles := false,
    rust_source_path := none, racerd := "/usr/bin/racerd" }

/-- A state in which the server is stopped (no host, no handle). -/
def sampleStopped : ServerState :=
  { sampleRunning with racerd_host := none, racerd_phandle := none }

/-- A sample environment for one `_StartServer` call. -/
def sampleEnv : StartEnv :=
  { port := 4000, urandom := fun n => List.range n,
    secretFileName := "/tmp/secret", newHandle := 7,
    logDir := "/tmp/logs", alive := fun _ => true }

/-! ## Theorems -/

/-- C1 counterexample: a candidate whose backend `column` is `0` but whose
`file_path` and `line` are truthy still gets a location attached (with the
`column_num` key merely omitted), refuting the claim that a location is
attached only when all three fields are truthy and that `column = 0`
yields a candidate with no attached location. -/
theorem C1_counterexample :
    GetExtraData { text := "foo", kind := "Function", context := "fn foo()",
                   file_path := "/src/lib.rs", line := 10, column := 0 } =
      some { filepath := some "/src/lib.rs", line_num := some 10,
             column_num := none } := by
  decide

/-- C1 (amended): `_GetExtraData` attaches a location exactly when at
least one of file path, line and column is truthy; each of the three keys
is present exactly when its field is truthy, with a truthy column stored
one-based (column 5 becomes 6) and a zero column merely omitting the
`column_num` key. -/
theorem C1_theorem (c : Completion) :
    GetExtraData c =
      (if c.file_path = "" ∧ c.line = 0 ∧ c.column = 0 then none
       else some
         { filepath := if c.file_path = "" then none else some c.file_path,
           line_num := if c.line = 0 then none else some c.line,
           column_num := if c.column = 0 then none else some (c.column + 1) }) := by
  obtain ⟨text, kind, context, fp, ln, col⟩ := c
  by_cases h1 : fp = "" <;> by_cases h2 : ln = 0 <;> by_cases h3 : col = 0 <;>
    simp [GetExtraData, h1, h2, h3]

/-- C2 counterexample: with no source path configured, a connection-level
failure on the completion fetch propagates as the original connection
error, not as the distinguished misconfiguration `RuntimeError` (only
`requests.HTTPError` is translated). -/
theorem C2_counterexample :
    ComputeCandidatesInner none HttpOutcome.connectionFailure =
      Except.error ReqError.connectionError := by
  rfl

/-- C2 (amended): the misconfiguration translation applies exactly to
HTTP-status errors (`requests.HTTPError` from `raise_for_status`): a 4xx
or 5xx response raises the misconfiguration `RuntimeError` when no source
path is configured and the original HTTP error otherwise, while a
connection-level failure propagates unchanged in both configurations. -/
theorem C2_theorem (rust_source_path : Option String) (body : List Completion)
    (status : Nat) (h4 : 400 ≤ status) (h6 : status < 600) :
    ComputeCandidatesInner rust_source_path HttpOutcome.connectionFailure =
      Except.error ReqError.connectionError ∧
    ComputeCandidatesInner rust_source_path (.response status body) =
      (if optStrTruthy rust_source_path then
         Except.error (ReqError.httpError status)
       else Except.error (ReqError.runtimeError ERROR_FROM_RACERD_MESSAGE)) := by
  refine ⟨rfl, ?_⟩
  have hget : GetResponse (HttpOutcome.response status body) =
      Except.error (ReqError.httpError status) := by
    simp [GetResponse, h4, h6]
  simp only [ComputeCandidatesInner, FetchCompletions, hget]
  cases hrsp : optStrTruthy rust_source_path <;> simp [hrsp]

/-- C2 witness: at status 500 with a configured source path, the original
HTTP error propagates. -/
theorem C2_witness :
    400 ≤ 500 ∧ 500 < 600 ∧
    ComputeCandidatesInner (some "/rust/src") (.response 500 []) =
      Except.error (ReqError.httpError 500) := by
  refine ⟨by decide, by decide, ?_⟩
  have h := (C2_theorem (some "/rust/src") [] 500 (by decide) (by decide)).2
  simpa using h

/-- C3 (code bug, evaluated at the failing input): with the server not
running but both log paths recorded, `DebugInfo` raises `AttributeError`
instead of returning the "not running, logs at" string, because the stray
comma in the source makes the returned expression a tuple and `format` is
called on that tuple. -/
theorem C3_bug :
    DebugInfo (fun _ => false)
      { racerd_host := none, racerd_phandle := none,
        server_stdout := some "/tmp/racerd_4000_stdout.log",
        server_stderr := some "/tmp/racerd_4000_stderr.log",
        hmac_secret := [], keep_logfiles := true,
        rust_source_path := none, racerd := "/usr/bin/racerd" } =
      DebugInfoResult.raised "AttributeError" := by
  rfl

/-- C4: the readiness check returns `false` without consulting the probe
when the liveness check fails; a connection-error from the probe is
reported as boolean `false` rather than propagated; an HTTP-status error
from the probe (any other exception class) propagates to the caller. -/
theorem C4_theorem (alive : Nat → Bool) (s snot : ServerState) (status : Nat)
    (hrun : ServerIsRunning alive s = true)
    (hnot : ServerIsRunning alive snot = false)
    (h4 : 400 ≤ status) (h6 : status < 600) :
    (∀ ping : HttpOutcome Unit, ServerIsReady alive snot ping = .ok false) ∧
    ServerIsReady alive s HttpOutcome.connectionFailure = .ok false ∧
    ServerIsReady alive s (.response status ()) =
      Except.error (ReqError.httpError status) := by
  refine ⟨fun ping => ?_, ?_, ?_⟩
  · simp [ServerIsReady, hnot]
  · simp [ServerIsReady, hrun, GetResponse]
  · simp [ServerIsReady, hrun, GetResponse, h4, h6]

/-- C4 witness: concrete stopped and running states, a connection
failure, and a 500 probe response. -/
theorem C4_witness :
    ServerIsReady (fun _ => true) sampleStopped (.response 200 ()) = .ok false ∧
    ServerIsReady (fun _ => true) sampleRunning HttpOutcome.connectionFailure =
      .ok false ∧
    ServerIsReady (fun _ => true) sampleRunning (.response 500 ()) =
      Except.error (ReqError.httpError 500) := by
  have h := C4_theorem (fun _ => true) sampleRunning sampleStopped 500
    (by decide) (by decide) (by decide) (by decide)
  exact ⟨h.1 _, h.2.1, h.2.2⟩

/-- C5: a 204 no-content reply makes `_GetResponse` return the explicit
absent result (`None`, distinct from a parsed empty object), and the
completion gateway maps both an absent and an empty completion set to the
empty candidate list, not an error. -/
theorem C5_theorem (body : List Completion) (rust_source_path : Option String) :
    GetResponse (HttpOutcome.response 204 body) =
      Except.ok (none : Option (List Completion)) ∧
    ComputeCandidatesInner rust_source_path (.response 204 body) = .ok [] ∧
    ComputeCandidatesInner rust_source_path (.response 200 []) = .ok [] := by
  exact ⟨rfl, rfl, rfl⟩

/-- The startup-failure flag of a start call is the negated liveness
check on the resulting state. -/
theorem startServer_raised (env : StartEnv) (s : ServerState) (fs : List String) :
    (StartServer env s fs).raisedStartupFailure =
      !ServerIsRunning env.alive (StartServer env s fs).state := rfl

/-- C6: every start call either raises the startup failure, or returns
with the liveness check true, the recorded address being the loopback
address of the chosen port, `DebugInfo` reporting exactly that address
(with the binary path and both log paths), and every subsequently built
request using that same address as url host. -/
theorem C6_theorem (env : StartEnv) (s : ServerState) (fs : List String)
    (handler : Bytes) (params : Option Bytes) (method : Bytes) :
    (StartServer env s fs).raisedStartupFailure = true ∨
    (ServerIsRunning env.alive (StartServer env s fs).state = true ∧
     (StartServer env s fs).state.racerd_host =
       some ("http://127.0.0.1:" ++ toString env.port) ∧
     DebugInfo env.alive (StartServer env s fs).state =
       .str ("racerd\n  listening at: " ++
             ("http://127.0.0.1:" ++ toString env.port) ++
             "\n  racerd path: " ++ s.racerd ++
             "\n  stdout log: " ++ logFileName env.logDir env.port "stdout" ++
             "\n  stderr log: " ++ logFileName env.logDir env.port "stderr") ∧
     (BuildRequest (StartServer env s fs).state handler params method).url =
       ToBytes ("http://127.0.0.1:" ++ toString env.port) ++ handler) := by
  cases h : ServerIsRunning env.alive (StartServer env s fs).state with
  | false => left; rw [startServer_raised, h]; rfl
  | true =>
      right
      refine ⟨rfl, rfl, ?_, rfl⟩
      rw [DebugInfo, if_pos h]
      rfl

/-- `stopProc` always leaves the process handle cleared. -/
theorem stopProc_phandle (s : ServerState) : (stopProc s).racerd_phandle = none := by
  cases h : s.racerd_phandle <;> simp [stopProc, h]

/-- `stopProc` does nothing when the handle is already cleared. -/
theorem stopProc_id_of_none (s : ServerState) (h : s.racerd_phandle = none) :
    stopProc s = s := by
  simp [stopProc, h]

/-- `stopProc` only touches the handle and the host. -/
theorem stopProc_preserved (s : ServerState) :
    (stopProc s).server_stdout = s.server_stdout ∧
    (stopProc s).server_stderr = s.server_stderr ∧
    (stopProc s).keep_logfiles = s.keep_logfiles ∧
    (stopProc s).rust_source_path = s.rust_source_path ∧
    (stopProc s).racerd = s.racerd ∧
    (stopProc s).hmac_secret = s.hmac_secret := by
  unfold stopProc
  split <;> simp

/-- `stopLogs` only touches the recorded log paths. -/
theorem stopLogs_preserved (s : ServerState) (fs : List String) :
    (stopLogs s fs).1.racerd_phandle = s.racerd_phandle ∧
    (stopLogs s fs).1.racerd_host = s.racerd_host ∧
    (stopLogs s fs).1.keep_logfiles = s.keep_logfiles ∧
    (stopLogs s fs).1.rust_source_path = s.rust_source_path ∧
    (stopLogs s fs).1.racerd = s.racerd ∧
    (stopLogs s fs).1.hmac_secret = s.hmac_secret := by
  unfold stopLogs
  split <;> simp

/-- A stop call clears the process handle and preserves the binary path,
the retention flag, the source path and the secret. -/
theorem stopServer_preserved (s : ServerState) (fs : List String) :
    (StopServer s fs).1.racerd_phandle = none ∧
    (StopServer s fs).1.keep_logfiles = s.keep_logfiles ∧
    (StopServer s fs).1.rust_source_path = s.rust_source_path ∧
    (StopServer s fs).1.racerd = s.racerd ∧
    (StopServer s fs).1.hmac_secret = s.hmac_secret := by
  unfold StopServer
  refine ⟨?_, ?_, ?_, ?_, ?_⟩
  · rw [(stopLogs_preserved _ _).1, stopProc_phandle]
  · rw [(stopLogs_preserved _ _).2.2.1, (stopProc_preserved _).2.2.1]
  · rw [(stopLogs_preserved _ _).2.2.2.1, (stopProc_preserved _).2.2.2.1]
  · rw [(stopLogs_preserved _ _).2.2.2.2.1, (stopProc_preserved _).2.2.2.2.1]
  · rw [(stopLogs_preserved _ _).2.2.2.2.2, (stopProc_preserved _).2.2.2.2.2]

/-- A stopped server is never reported running. -/
theorem stopServer_not_running (alive : Nat → Bool) (s : ServerState)
    (fs : List String) :
    ServerIsRunning alive (StopServer s fs).1 = false := by
  unfold ServerIsRunning
  rw [(stopServer_preserved s fs).1]
  simp [ProcessIsRunning]

/-- The state a start call produces does not depend on the log fields,
the host or the handle of the state it starts from. -/
theorem startServer_state_congr (env : StartEnv) (s t : ServerState)
    (fs gs : List String) (h1 : s.keep_logfiles = t.keep_logfiles)
    (h2 : s.rust_source_path = t.rust_source_path) (h3 : s.racerd = t.racerd) :
    (StartServer env s fs).state = (StartServer env t gs).state := by
  simp [StartServer, h1, h2, h3]

/-- C7: restart produces exactly the state of a stop followed by a start
— the full attribute record, the startup-failure flag, and hence all the
externally observable state (`IsRunning`, recorded address, log paths,
`DebugInfo` output) coincide. -/
theorem C7_theorem (env : StartEnv) (s : ServerState) (fs : List String) :
    (RestartServer env s fs).state =
      (StartServer env (StopServer s fs).1 (StopServer s fs).2).state ∧
    (RestartServer env s fs).raisedStartupFailure =
      (StartServer env (StopServer s fs).1 (StopServer s fs).2).raisedStartupFailure ∧
    observe env.alive (RestartServer env s fs).state =
      observe env.alive
        (StartServer env (StopServer s fs).1 (StopServer s fs).2).state := by
  have hstate : (RestartServer env s fs).state =
      (StartServer env (StopServer s fs).1 (StopServer s fs).2).state := by
    rw [RestartServer]
    cases h : ServerIsRunning env.alive s with
    | true => simp
    | false =>
        simp only [Bool.false_eq_true, if_false]
        exact startServer_state_congr env s (StopServer s fs).1 fs
          (StopServer s fs).2 (stopServer_preserved s fs).2.1.symm
          (stopServer_preserved s fs).2.2.1.symm
          (stopServer_preserved s fs).2.2.2.1.symm
  have hraised : (RestartServer env s fs).raisedStartupFailure =
      !ServerIsRunning env.alive (RestartServer env s fs).state := by
    rw [RestartServer]
    cases h : ServerIsRunning env.alive s <;> simp [startServer_raised]
  refine ⟨hstate, ?_, by rw [hstate]⟩
  rw [hraised, hstate, startServer_raised]

/-- The unlink step never adds files. -/
theorem unlinkIfExists_subset (fs : List String) (o : Option String) :
    (unlinkIfExists fs o).2 ⊆ fs := by
  cases o with
  | none => exact fun a h => h
  | some q =>
      simp only [unlinkIfExists]
      split
      · exact fun a ha => (List.mem_filter.mp ha).1
      · exact fun a h => h

/-- After the unlink step for a truthy recorded path, the file is gone. -/
theorem unlinkIfExists_not_mem (fs : List String) (q : String) (hq : q ≠ "") :
    q ∉ (unlinkIfExists fs (some q)).2 := by
  simp only [unlinkIfExists]
  split
  · simp
  · rename_i h
    intro hmem
    exact h ⟨hq, hmem⟩

/-- Re-running the unlink step on its own output (over any filesystem
that has no more files than before) changes nothing. -/
theorem unlinkIfExists_stable (fs fs2 : List String) (o : Option String)
    (hsub : fs2 ⊆ fs) :
    unlinkIfExists fs2 (unlinkIfExists fs o).1 = ((unlinkIfExists fs o).1, fs2) := by
  cases o with
  | none => rfl
  | some q =>
      by_cases hc : q ≠ "" ∧ q ∈ fs
      · simp [unlinkIfExists, hc]
      · have hc2 : ¬(q ≠ "" ∧ q ∈ fs2) := fun h2 => hc ⟨h2.1, hsub h2.2⟩
        simp [unlinkIfExists, hc, hc2]

/-- A second stop right after a first one is a no-op: it returns exactly
the state and filesystem the first stop produced. -/
theorem stopServer_idem (s : ServerState) (fs : List String) :
    StopServer (StopServer s fs).1 (StopServer s fs).2 = StopServer s fs := by
  unfold StopServer
  rw [stopProc_id_of_none _ (by rw [(stopLogs_preserved _ _).1, stopProc_phandle])]
  generalize stopProc s = t
  by_cases hk : t.keep_logfiles
  · simp [stopLogs, hk]
  · simp only [stopLogs, hk, if_false, Bool.false_eq_true]
    have hsub1 : (unlinkIfExists (unlinkIfExists fs t.server_stdout).2
        t.server_stderr).2 ⊆ (unlinkIfExists fs t.server_stdout).2 :=
      unlinkIfExists_subset _ _
    have hsub2 : (unlinkIfExists (unlinkIfExists fs t.server_stdout).2
        t.server_stderr).2 ⊆ fs :=
      fun a ha => unlinkIfExists_subset _ _ (hsub1 ha)
    rw [unlinkIfExists_stable _ _ _ hsub2, unlinkIfExists_stable _ _ _ hsub1]

/-- C8 counterexample: with log retention disabled and a recorded stdout
log whose file does not exist, stop leaves the recorded path in place
(the clearing happens only in the branch that deletes an existing file),
refuting the claim that the recorded log paths are always cleared. -/
theorem C8_counterexample :
    ((StopServer
      { racerd_host := none, racerd_phandle := none,
        server_stdout := some "/tmp/racerd_4000_stdout.log",
        server_stderr := some "/tmp/racerd_4000_stderr.log",
        hmac_secret := [], keep_logfiles := false,
        rust_source_path := none, racerd := "/usr/bin/racerd" } []).1).server_stdout =
      some "/tmp/racerd_4000_stdout.log" := by
  decide

/-- With log retention disabled, the recorded log path fields a stop
leaves behind are exactly the first components of the two unlink steps,
run in source order (the stderr step sees the filesystem after the
stdout removal). -/
theorem stopServer_log_fields (s : ServerState) (fs : List String)
    (hk : s.keep_logfiles = false) :
    (StopServer s fs).1.server_stdout = (unlinkIfExists fs s.server_stdout).1 ∧
    (StopServer s fs).1.server_stderr =
      (unlinkIfExists (unlinkIfExists fs s.server_stdout).2 s.server_stderr).1 := by
  have hkt : (stopProc s).keep_logfiles = false := by
    rw [(stopProc_preserved s).2.2.1]; exact hk
  constructor <;>
    · rw [StopServer, stopLogs, if_neg (by rw [hkt]; simp),
          (stopProc_preserved s).1, (stopProc_preserved s).2.1]

/-- C8 (amended): after a stop with log retention disabled, each log
file whose truthy path was recorded is no longer on disk (deleting it if
it existed, with a missing file raising no error); each recorded log
path is cleared exactly when its own removal branch deleted the file —
left as the recorded `some` path otherwise — where the stderr branch,
running second, judges existence against the filesystem after the stdout
removal, exactly as in the source; a second consecutive stop is a no-op
returning the identical state and filesystem; and the server is reported
not running. -/
theorem C8_theorem (alive : Nat → Bool) (s : ServerState) (fs : List String)
    (hk : s.keep_logfiles = false) :
    (∀ q, s.server_stdout = some q → q ≠ "" → q ∉ (StopServer s fs).2) ∧
    (∀ q, s.server_stderr = some q → q ≠ "" → q ∉ (StopServer s fs).2) ∧
    (∀ q, s.server_stdout = some q →
      (StopServer s fs).1.server_stdout =
        (if q ≠ "" ∧ q ∈ fs then none else some q)) ∧
    (∀ q, s.server_stderr = some q →
      (StopServer s fs).1.server_stderr =
        (if q ≠ "" ∧ q ∈ (unlinkIfExists fs s.server_stdout).2 then none
         else some q)) ∧
    StopServer (StopServer s fs).1 (StopServer s fs).2 = StopServer s fs ∧
    ServerIsRunning alive (StopServer s fs).1 = false := by
  have hkt : (stopProc s).keep_logfiles = false := by
    rw [(stopProc_preserved s).2.2.1]; exact hk
  have hout : (stopProc s).server_stdout = s.server_stdout :=
    (stopProc_preserved s).1
  have herr : (stopProc s).server_stderr = s.server_stderr :=
    (stopProc_preserved s).2.1
  have hfs : (StopServer s fs).2 =
      (unlinkIfExists (unlinkIfExists fs s.server_stdout).2 s.server_stderr).2 := by
    rw [StopServer, stopLogs, if_neg, hout, herr]
    rw [hkt]
    simp
  refine ⟨?_, ?_, ?_, ?_, stopServer_idem s fs, stopServer_not_running alive s fs⟩
  · intro q hq hq2
    rw [hfs, hq]
    intro hmem
    exact unlinkIfExists_not_mem fs q hq2 (unlinkIfExists_subset _ _ hmem)
  · intro q hq hq2
    rw [hfs, hq]
    exact unlinkIfExists_not_mem _ q hq2
  · intro q hq
    rw [(stopServer_log_fields s fs hk).1, hq]
    by_cases hc : q ≠ "" ∧ q ∈ fs <;> simp [unlinkIfExists, hc]
  · intro q hq
    rw [(stopServer_log_fields s fs hk).2, hq]
    generalize (unlinkIfExists fs s.server_stdout).2 = gs
    by_cases hc : q ≠ "" ∧ q ∈ gs <;> simp [unlinkIfExists, hc]

/-- C8 witness: stopping the running sample state with both log files
present deletes the stdout log, clears both recorded log paths (the
cleared-when-deleted direction at a concrete input), and leaves the
server not running. -/
theorem C8_witness :
    "/tmp/racerd_4000_stdout.log" ∉
      (StopServer sampleRunning
        ["/tmp/racerd_4000_stdout.log", "/tmp/racerd_4000_stderr.log"]).2 ∧
    (StopServer sampleRunning
      ["/tmp/racerd_4000_stdout.log", "/tmp/racerd_4000_stderr.log"]).1.server_stdout =
      none ∧
    (StopServer sampleRunning
      ["/tmp/racerd_4000_stdout.log", "/tmp/racerd_4000_stderr.log"]).1.server_stderr =
      none ∧
    ServerIsRunning (fun _ => true)
      (StopServer sampleRunning
        ["/tmp/racerd_4000_stdout.log", "/tmp/racerd_4000_stderr.log"]).1 =
      false := by
  have h := C8_theorem (fun _ => true) sampleRunning
    ["/tmp/racerd_4000_stdout.log", "/tmp/racerd_4000_stderr.log"] rfl
  refine ⟨h.1 _ rfl (by decide), ?_, ?_, h.2.2.2.2.2⟩
  · rw [h.2.2.1 _ rfl]
    decide
  · rw [h.2.2.2.1 _ rfl]
    decide

/-- The authentication header of every built request is the hex encoding
of the request code over exactly the transmitted method, handler and
body, keyed by the current secret (shared by the C9 and C10 theorems). -/
theorem buildRequest_headers (s : ServerState) (handler method : Bytes)
    (params : Option Bytes) :
    (BuildRequest s handler params method).headers =
      [("content-type", "application/json"),
       (RACERD_HMAC_HEADER,
        hexlify (CreateRequestHmac method handler
          (BuildRequest s handler params method).body s.hmac_secret))] := by
  cases params with
  | none => rfl
  | some encoded =>
      by_cases h : encoded = [] <;> simp [BuildRequest, ExtraHeaders, h]

/-- C9: the authentication header value equals the hex encoding of the
keyed request code computed over exactly the method, path and body bytes
that are transmitted, keyed by the secret; an absent payload is signed as
the empty byte string, which is also the body sent; and the computation
is deterministic in those inputs (it is a pure function of them). -/
theorem C9_theorem (s : ServerState) (handler method encoded : Bytes)
    (params : Option Bytes) :
    (BuildRequest s handler params method).headers =
      [("content-type", "application/json"),
       (RACERD_HMAC_HEADER,
        hexlify (CreateRequestHmac method handler
          (BuildRequest s handler params method).body s.hmac_secret))] ∧
    (BuildRequest s handler none method).body = [] ∧
    (BuildRequest s handler (some encoded) method).body = encoded ∧
    (BuildRequest s handler params method).method = method := by
  exact ⟨buildRequest_headers s handler method params, rfl, rfl, rfl⟩

/-- The base64 encoding of `n` bytes has `4 * ((n + 2) / 3)` bytes. -/
theorem b64encode_length : ∀ bs : Bytes,
    (b64encode bs).length = 4 * ((bs.length + 2) / 3)
  | [] => by simp [b64encode]
  | [a] => by simp [b64encode]
  | [a, b] => by simp [b64encode]
  | a :: b :: c :: rest => by
      simp [b64encode, b64encode_length rest]
      omega

/-- C10: after a start call the recorded secret is the base64 encoding of
the `HMAC_SECRET_LENGTH` fresh random bytes (24 bytes long for the fixed
16-byte random input), it is exactly the byte string written to the
secret-transfer file during that start, every request built against the
resulting state signs with exactly that secret, and a stop call does not
change it (no other operation writes it before the next start). -/
theorem C10_theorem (env : StartEnv) (s : ServerState) (fs fs2 : List String)
    (hlen : (env.urandom HMAC_SECRET_LENGTH).length = HMAC_SECRET_LENGTH) :
    (StartServer env s fs).state.hmac_secret =
      b64encode (env.urandom HMAC_SECRET_LENGTH) ∧
    (StartServer env s fs).secretFileContent =
      (StartServer env s fs).state.hmac_secret ∧
    (StartServer env s fs).state.hmac_secret.length = 24 ∧
    (StopServer (StartServer env s fs).state fs2).1.hmac_secret =
      (StartServer env s fs).state.hmac_secret ∧
    (∀ handler method : Bytes, ∀ params : Option Bytes,
      (BuildRequest (StartServer env s fs).state handler params method).headers =
        [("content-type", "application/json"),
         (RACERD_HMAC_HEADER,
          hexlify (CreateRequestHmac method handler
            (BuildRequest (StartServer env s fs).state handler params method).body
            (b64encode (env.urandom HMAC_SECRET_LENGTH))))]) := by
  refine ⟨rfl, rfl, ?_, ?_, ?_⟩
  · show (b64encode (env.urandom HMAC_SECRET_LENGTH)).length = 24
    rw [b64encode_length, hlen]
    rfl
  · exact (stopServer_preserved _ _).2.2.2.2
  · intro handler method params
    exact buildRequest_headers (StartServer env s fs).state handler method params

/-- C10 witness: a concrete start over a 16-byte random draw. -/
theorem C10_witness :
    (sampleEnv.urandom HMAC_SECRET_LENGTH).length = HMAC_SECRET_LENGTH ∧
    (StartServer sampleEnv sampleStopped []).state.hmac_secret =
      b64encode (sampleEnv.urandom HMAC_SECRET_LENGTH) ∧
    (StartServer sampleEnv sampleStopped []).state.hmac_secret.length = 24 := by
  refine ⟨by decide, ?_, ?_⟩
  · exact (C10_theorem sampleEnv sampleStopped [] [] (by decide)).1
  · exact (C10_theorem sampleEnv sampleStopped [] [] (by decide)).2.2.1

end Racerd
